import Mathlib

/-!
Shallow embedding of the `partitioning_setup` diagnostic scripts
(`stress_long.py`, `cpu_partition_stress.py`, `ml_benchmark.py`,
`mpi_cpu_test_buffers.py`, `mpi_mig_test.py`) and proofs about the
claims of the specification.

Conventions of the embedding:
* Python wall-clock times and integer flag values are modelled as `Int`
  (Python ints are unbounded; times are treated at integer granularity,
  which is all the scripts' comparisons depend on).
* Fallible OS introspection (file reads, `sched_getaffinity`) is passed
  in as explicit `Option`/`Except` data: `none`/`.error` stands for the
  call raising or the path being absent. A Python function that catches
  every exception and returns `None` becomes a total function into
  `Option`; totality of the Lean function is the "never raises" part.
* File contents are modelled as lists of lines.
* The per-process side effects each script performs (spawning threads,
  calling `gpu_loop`, joining, printing) are recorded in explicit result
  structures mirroring the straight-line code.
-/

namespace PartitioningSetup

/-- `torch.device` kinds used by the scripts. -/
inductive Device
  | cpu
  | cuda
deriving DecidableEq, Repr

/-- A `Thread.join` call as issued by a script: `timeout` is the optional
`timeout=` argument in seconds (`none` = `t.join()` with no timeout). -/
structure JoinCall where
  timeout : Option Nat
deriving DecidableEq, Repr

/-- Semantics of joining one worker: given the time `workerExit` after which
the worker exits (`none` = the worker never exits), the time the caller
stays blocked in the join; `none` means the caller blocks indefinitely. -/
def joinWait (j : JoinCall) (workerExit : Option Nat) : Option Nat :=
  match j.timeout, workerExit with
  | some g, some e => some (min g e)
  | some g, none => some g
  | none, some e => some e
  | none, none => none

/-! ## stress_long.py -/

/-- The three flags of `stress_long.py`'s argument parser. -/
structure StressArgs where
  seconds : Int
  cpuThreads : Int
  matrix : Int
deriving DecidableEq, Repr

/-- The argparse defaults: `--seconds 180 --cpu-threads 8 --matrix 4096`. -/
def defaultStressArgs : StressArgs := ⟨180, 8, 4096⟩

/-- One command-line token stream element for `stress_long.py`: either one of
the three recognised flags together with its integer value, or a token the
parser does not recognise. -/
inductive ArgTok
  | secondsFlag (v : Int)
  | cpuThreadsFlag (v : Int)
  | matrixFlag (v : Int)
  | unknown (s : String)
deriving DecidableEq, Repr

/-- `argparse` semantics for `stress_long.py`'s parser: recognised flags
overwrite the current value, an unrecognised token makes `parse_args`
print usage and exit with status 2 (modelled as `.error 2`). -/
def parse_args : List ArgTok → StressArgs → Except Nat StressArgs
  | [], acc => .ok acc
  | .secondsFlag v :: rest, acc => parse_args rest { acc with seconds := v }
  | .cpuThreadsFlag v :: rest, acc => parse_args rest { acc with cpuThreads := v }
  | .matrixFlag v :: rest, acc => parse_args rest { acc with matrix := v }
  | .unknown _ :: _, _ => .error 2

/-- `ap.parse_args()` in `stress_long.main`, starting from the defaults. -/
def stressLongParse (toks : List ArgTok) : Except Nat StressArgs :=
  parse_args toks defaultStressArgs

/-- `true` iff the token stream contains a token the parser does not know. -/
def hasUnknownTok : List ArgTok → Bool
  | [] => false
  | .unknown _ :: _ => true
  | _ :: rest => hasUnknownTok rest

/-- A pseudo-filesystem / OS snapshot as seen by the probing helpers.
`readFile p = .error ()` models `open`/`read` raising `OSError` on `p`;
contents are lists of lines. -/
structure ProcFS where
  osPosix : Bool
  pathExists : String → Bool
  readFile : String → Except Unit (List String)

/-- The scan of `/proc/self/status` lines inside `read_linux_cpu_affinity`:
return the text after the first colon of the first `Cpus_allowed_list:`
line, stripped. -/
def findAffinityLine : List String → Option String
  | [] => none
  | line :: rest =>
    if line.startsWith "Cpus_allowed_list:" then
      some (line.drop "Cpus_allowed_list:".length).trim
    else
      findAffinityLine rest

/-- `read_linux_cpu_affinity` (identical in `stress_long.py` and
`ml_benchmark.py`): `None` unless on posix with `/proc/self/status`
present; every I/O failure is caught and yields `None`. -/
def read_linux_cpu_affinity (fs : ProcFS) : Option String :=
  if !fs.osPosix || !fs.pathExists "/proc/self/status" then none
  else
    match fs.readFile "/proc/self/status" with
    | .error _ => none
    | .ok lines => findAffinityLine lines

/-- `path.lstrip("/")`: drop leading slashes. -/
def lstripSlash (s : String) : String := s.dropWhile (· = '/')

/-- The per-line body of the loop in `read_linux_cgroup_cpuset`: on a
cgroup-v2 line `0::<path>` build `/sys/fs/cgroup/<path>/cpuset.cpus`,
read it if it exists (an I/O error yields `none`); otherwise keep
scanning; `none` after the last line. -/
def cgroupScan (fs : ProcFS) : List String → Option String
  | [] => none
  | line :: rest =>
    let parts := line.trim.splitOn ":"
    if parts.length = 3 && parts.headD "" == "0" then
      let path := parts.getLastD ""
      let cpusetPath := "/sys/fs/cgroup/" ++ lstripSlash path ++ "/cpuset.cpus"
      if fs.pathExists cpusetPath then
        match fs.readFile cpusetPath with
        | .error _ => none
        | .ok content => some (String.intercalate "\n" content).trim
      else
        cgroupScan fs rest
    else
      cgroupScan fs rest

/-- `read_linux_cgroup_cpuset` (identical in `stress_long.py` and
`ml_benchmark.py`). -/
def read_linux_cgroup_cpuset (fs : ProcFS) : Option String :=
  if !fs.osPosix then none
  else if !fs.pathExists "/proc/self/cgroup" then none
  else
    match fs.readFile "/proc/self/cgroup" with
    | .error _ => none
    | .ok lines => cgroupScan fs lines

/-- The affinity/cgroup lines `stress_long.main` prints: Python's
`if cpu_aff:` / `if cg_cpuset:` truthiness check omits the line when the
probe returned `None` or an empty string. -/
def stressLongProbeLines (fs : ProcFS) : List String :=
  (match read_linux_cpu_affinity fs with
    | some s => if s ≠ "" then ["CPU affinity (Cpus_allowed_list): " ++ s] else []
    | none => []) ++
  (match read_linux_cgroup_cpuset fs with
    | some s => if s ≠ "" then ["Cgroup cpuset.cpus: " ++ s] else []
    | none => [])

/-- The observable shape of one run of `stress_long.main` after argument
parsing: which device was chosen, the device `gpu_loop` was invoked with
(`none` would mean the call was skipped), the shared `stop_time` passed to
`gpu_loop`, the `stop_time` argument handed to each spawned CPU thread
(one list entry per thread), the join call issued per thread, and the
process exit status. -/
structure StressRun where
  device : Device
  gpuLoopDevice : Option Device
  gpuLoopStop : Int
  workerStops : List Int
  joinCall : JoinCall
  exitCode : Nat
deriving DecidableEq, Repr

/-- `stress_long.main` after `parse_args`, as a function of CUDA
availability and the wall clock `now` at the `time.time()` call:
`device = cuda if torch.cuda.is_available() else cpu`;
`stop_time = time.time() + max(5, args.seconds)`;
`for _ in range(max(1, args.cpu_threads)): Thread(target=cpu_burn, args=(stop_time,))`;
then `gpu_loop(device, args.matrix, stop_time)` runs unconditionally in the
main thread; finally each thread is joined with `timeout=1` and the
program prints `Done.` and exits 0. -/
def stress_long_main (cudaAvailable : Bool) (now : Int) (args : StressArgs) : StressRun :=
  let device := if cudaAvailable then Device.cuda else Device.cpu
  let stop_time := now + max 5 args.seconds
  { device := device
    gpuLoopDevice := some device
    gpuLoopStop := stop_time
    workerStops := List.replicate (max 1 args.cpuThreads).toNat stop_time
    joinCall := { timeout := some 1 }
    exitCode := 0 }

/-- Python's `sum(range(n))`. -/
def sumRange (n : Nat) : Nat := (List.range n).sum

/-- `cpu_burn(stop_time)` from `stress_long.py` over an explicit trace of
`time.time()` readings: each iteration whose reading is before `stop_time`
adds `sum(range(50000))` to `s`; the first reading at or past `stop_time`
ends the loop and the function returns `s`. -/
def cpu_burn (stop_time : Int) : List Int → Nat
  | [] => 0
  | t :: rest => if t < stop_time then sumRange 50000 + cpu_burn stop_time rest else 0

/-! ## cpu_partition_stress.py -/

/-- Insert into an ascending list, keeping it ascending. -/
def insertAsc (x : Nat) : List Nat → List Nat
  | [] => [x]
  | y :: ys => if x ≤ y then x :: y :: ys else y :: insertAsc x ys

/-- Python's `sorted` on a list of CPU ids (insertion sort; only the
ascending-order result matters to the scripts). -/
def pySorted (l : List Nat) : List Nat := l.foldr insertAsc []

/-- The module-level affinity computation of `cpu_partition_stress.py`:
`sorted(os.sched_getaffinity(0))`, falling back to
`list(range(os.cpu_count()))` when the call raises (`sched = none`). -/
def partitionAffinity (sched : Option (List Nat)) (cpuCount : Nat) : List Nat :=
  match sched with
  | some s => pySorted s
  | none => List.range cpuCount

/-- The three report lines `cpu_partition_stress.py` prints before
spawning workers, as a function of the values interpolated into them. -/
def partitionReportLines (hostname : String) (pid : Nat) (aff : List Nat) : List String :=
  [ "Host: " ++ hostname ++ " PID: " ++ toString pid
  , "Allowed CPUs (affinity): " ++ toString aff
  , "Launching " ++ toString aff.length ++ " workers (one per allowed CPU)" ]

/-- The report of a `cpu_partition_stress.py` run as a function of the
probe outcome (`sched`, `cpuCount`) and the host identity. -/
def partitionProbeReport (sched : Option (List Nat)) (cpuCount : Nat)
    (hostname : String) (pid : Nat) : List String :=
  partitionReportLines hostname pid (partitionAffinity sched cpuCount)

/-- Iterations `cpu_burner`'s busy loop performs over a trace of
`time.time()` readings, each compared against the worker's own start
reading `t0` (`while time.time() - t0 < 20`). -/
def burnerIterations (t0 : Int) : List Int → Nat
  | [] => 0
  | t :: rest => if t - t0 < 20 then burnerIterations t0 rest + 1 else 0

/-- The deadline each `cpu_burner` worker effectively runs to: its own
start reading plus the hard-coded 20 seconds. -/
def burnerDeadline (t0 : Int) : Int := t0 + 20

/-- Observable outcome of one `cpu_burner(cpu)` worker. -/
structure BurnerResult where
  pinnedTo : Option Nat
  logMessages : List String
  iterations : Nat
deriving DecidableEq, Repr

/-- `cpu_burner(cpu)` from `cpu_partition_stress.py`: attempt
`os.sched_setaffinity(0, {cpu})`; on failure the `except Exception: pass`
branch emits nothing; either way `t0 = time.time()` is read and the busy
loop runs until `time.time() - t0 >= 20`. -/
def cpu_burner (cpu : Nat) (pinSucceeds : Bool) (t0 : Int) (clock : List Int) : BurnerResult :=
  { pinnedTo := if pinSucceeds then some cpu else none
    logMessages := []
    iterations := burnerIterations t0 clock }

/-- One spawned worker thread of `cpu_partition_stress.py`: the CPU id it
was handed (its pin target). -/
structure Worker where
  cpu : Nat
deriving DecidableEq, Repr

/-- The spawn loop `for cpu in affinity: Thread(target=cpu_burner, args=(cpu,))`. -/
def partitionWorkers (aff : List Nat) : List Worker :=
  aff.map Worker.mk

/-- The join loop of `cpu_partition_stress.py`: `for t in threads: t.join()`
carries no timeout argument. -/
def partitionJoinCall : JoinCall := { timeout := none }

/-! ## mpi_cpu_test_buffers.py / mpi_mig_test.py — ring exchange

Both scripts run the identical ring test: rank `r` out of `size` fills
`sendbuf = np.full(8, rank)`, posts `Irecv(recvbuf, source=(rank-1) % size,
tag=100)` and `Isend(sendbuf, dest=(rank+1) % size, tag=100)`, waits on
both, then checks `np.all(recvbuf == src)`.

MPI point-to-point matching: the receive posted at rank `r` with source
`q` and tag 100 is completed by the (unique) send posted at rank `q` whose
destination is `r` (all sends here carry tag 100). Ranks are `Int` and `%`
is Python's/Lean's Euclidean mod, so `(0 - 1) % size = size - 1`. -/

/-- `src = (rank - 1) % size`. -/
def mpiRingSrc (rank size : Int) : Int := (rank - 1) % size

/-- `dst = (rank + 1) % size`. -/
def mpiRingDst (rank size : Int) : Int := (rank + 1) % size

/-- `sendbuf = np.full(n, rank, dtype=np.int32)` (ranks are far below
`2^31`, so int32 wrap-around never occurs and `Int` entries are exact). -/
def mpiSendbuf (n : Nat) (rank : Int) : List Int := List.replicate n rank

/-- The ranks `0, 1, ..., size-1` of the communicator. -/
def mpiRanks (size : Int) : List Int := (List.range size.toNat).map Int.ofNat

/-- The payload delivered into rank `rank`'s `recvbuf` once `Waitall`
returns: the `sendbuf` of the unique rank `s` that both matches the posted
receive's source (`s = (rank-1) % size`) and addressed its send to `rank`
(`(s+1) % size = rank`); `none` if no posted send matches, in which case
the receive never completes. -/
def ringDelivered (n : Nat) (size rank : Int) : Option (List Int) :=
  ((mpiRanks size).find? fun s =>
      decide (s = mpiRingSrc rank size) && decide (mpiRingDst s size = rank)).map
    (mpiSendbuf n)

/-- `ok = np.all(recvbuf == src)` for rank `rank` (false if the receive
never completed). -/
def ringVerify (size rank : Int) : Bool :=
  match ringDelivered 8 size rank with
  | some buf => buf.all fun x => x == mpiRingSrc rank size
  | none => false

/-! ## Helper lemmas -/

/-- `find?` returns `a` when `a` is in the list, satisfies the predicate,
and is the only element that can satisfy it. -/
theorem find_eq_of_unique {α : Type} {p : α → Bool} {a : α} :
    ∀ {l : List α}, a ∈ l → p a = true → (∀ x, p x = true → x = a) →
      l.find? p = some a := by
  intro l
  induction l with
  | nil => intro h; exact absurd h (List.not_mem_nil a)
  | cons x xs ih =>
    intro hmem hpa hu
    by_cases hx : p x = true
    · have hxa : x = a := hu x hx
      subst hxa
      simp [List.find?, hx]
    · have hne : x ≠ a := fun he => hx (he ▸ hpa)
      have hmem' : a ∈ xs := by
        rcases List.mem_cons.mp hmem with h1 | h1
        · exact absurd h1.symm hne
        · exact h1
      have hfx : (x :: xs).find? p = xs.find? p := by
        simp [List.find?, hx]
      rw [hfx]
      exact ih hmem' hpa hu

/-- Stepping from a rank's left neighbour back around the ring:
`((rank - 1) % size + 1) % size = rank` when `0 ≤ rank < size` and
`2 ≤ size`. -/
theorem ring_src_dst_inverse (size rank : Int) (hsize : 2 ≤ size)
    (h0 : 0 ≤ rank) (hlt : rank < size) :
    mpiRingDst (mpiRingSrc rank size) size = rank := by
  unfold mpiRingSrc mpiRingDst
  have h1 : (1 : Int) % size = 1 := Int.emod_eq_of_lt (by omega) (by omega)
  calc ((rank - 1) % size + 1) % size
      = ((rank - 1) % size + 1 % size) % size := by rw [h1]
    _ = ((rank - 1) + 1) % size := (Int.add_emod _ _ _).symm
    _ = rank % size := by ring_nf
    _ = rank := Int.emod_eq_of_lt h0 hlt

/-- The left neighbour `(rank - 1) % size` is one of the communicator's
ranks. -/
theorem ring_src_mem_ranks (size rank : Int) (hsize : 2 ≤ size) :
    mpiRingSrc rank size ∈ mpiRanks size := by
  have hpos : (0 : Int) < size := by omega
  have h0 : 0 ≤ mpiRingSrc rank size := Int.emod_nonneg _ (by omega)
  have hlt : mpiRingSrc rank size < size := Int.emod_lt_of_pos _ hpos
  unfold mpiRanks
  refine List.mem_map.mpr ⟨(mpiRingSrc rank size).toNat, List.mem_range.mpr (by omega), ?_⟩
  exact Int.toNat_of_nonneg h0

/-- `read_linux_cpu_affinity` yields `None` when `/proc/self/status` is
absent. -/
theorem affinity_none_of_no_status (fs : ProcFS)
    (h : fs.pathExists "/proc/self/status" = false) :
    read_linux_cpu_affinity fs = none := by
  unfold read_linux_cpu_affinity
  rw [h]
  simp

/-- `read_linux_cpu_affinity` yields `None` when reading
`/proc/self/status` raises. -/
theorem affinity_none_of_read_error (fs : ProcFS)
    (h : fs.readFile "/proc/self/status" = .error ()) :
    read_linux_cpu_affinity fs = none := by
  unfold read_linux_cpu_affinity
  rw [h]
  split <;> rfl

/-- `read_linux_cgroup_cpuset` yields `None` when `/proc/self/cgroup` is
absent. -/
theorem cgroup_none_of_no_path (fs : ProcFS)
    (h : fs.pathExists "/proc/self/cgroup" = false) :
    read_linux_cgroup_cpuset fs = none := by
  unfold read_linux_cgroup_cpuset
  rw [h]
  simp

/-- `read_linux_cgroup_cpuset` yields `None` when reading
`/proc/self/cgroup` raises. -/
theorem cgroup_none_of_read_error (fs : ProcFS)
    (h : fs.readFile "/proc/self/cgroup" = .error ()) :
    read_linux_cgroup_cpuset fs = none := by
  unfold read_linux_cgroup_cpuset
  rw [h]
  split <;> rename_i hc
  · rfl
  · split <;> rfl

/-- `parse_args` succeeds on any token stream free of unrecognised
tokens, whatever the accumulated values. -/
theorem parse_args_ok_of_known (toks : List ArgTok) (h : hasUnknownTok toks = false) :
    ∀ acc : StressArgs, ∃ r, parse_args toks acc = .ok r := by
  induction toks with
  | nil => exact fun acc => ⟨acc, rfl⟩
  | cons t rest ih =>
    intro acc
    cases t with
    | secondsFlag v => exact ih h _
    | cpuThreadsFlag v => exact ih h _
    | matrixFlag v => exact ih h _
    | unknown s => simp [hasUnknownTok] at h

/-! ## Claim theorems -/

/-- C1 (counterexample): with CUDA unavailable, `stress_long.main` still
invokes `gpu_loop`, handing it the CPU device — the GPU loop is not
skipped, contradicting the claim that it is never run on the CPU device. -/
theorem c1_counterexample :
    (stress_long_main false 1000 defaultStressArgs).gpuLoopDevice = some Device.cpu := by
  decide

/-- C1 (amended): for every run of `stress_long.main` in which no CUDA
accelerator is available, the selected device is the CPU, the GPU loop is
run on that CPU device (not skipped), the CPU workers are still spawned
(`max(1, cpu_threads)` of them, all polling the shared deadline), and the
process exits 0. -/
theorem c1_gpu_loop_on_cpu (now : Int) (args : StressArgs) :
    (stress_long_main false now args).device = Device.cpu ∧
    (stress_long_main false now args).gpuLoopDevice = some Device.cpu ∧
    (stress_long_main false now args).workerStops.length = (max 1 args.cpuThreads).toNat ∧
    (stress_long_main false now args).exitCode = 0 := by
  refine ⟨rfl, rfl, ?_, rfl⟩
  simp [stress_long_main]

/-- C2: for every communicator size `N ≥ 2` and every rank `0 ≤ r < N`,
the ring exchange of `mpi_cpu_test_buffers.py` / `mpi_mig_test.py`
delivers into rank `r`'s receive buffer exactly eight copies of its left
neighbour's rank `(r - 1) % N`, and the element-wise check
`np.all(recvbuf == src)` evaluates to true. -/
theorem c2_ring_exchange (size rank : Int) (hsize : 2 ≤ size)
    (h0 : 0 ≤ rank) (hlt : rank < size) :
    ringDelivered 8 size rank = some (List.replicate 8 (mpiRingSrc rank size)) ∧
    ringVerify size rank = true := by
  have hfind : ((mpiRanks size).find? fun s =>
      decide (s = mpiRingSrc rank size) && decide (mpiRingDst s size = rank))
      = some (mpiRingSrc rank size) := by
    apply find_eq_of_unique
    · exact ring_src_mem_ranks size rank hsize
    · have hd := ring_src_dst_inverse size rank hsize h0 hlt
      simp [hd]
    · intro x hx
      simp only [Bool.and_eq_true, decide_eq_true_eq] at hx
      exact hx.1
  have hdel : ringDelivered 8 size rank = some (List.replicate 8 (mpiRingSrc rank size)) := by
    unfold ringDelivered
    rw [hfind]
    rfl
  refine ⟨hdel, ?_⟩
  unfold ringVerify
  rw [hdel]
  simp [List.all_eq_true, List.mem_replicate]

/-- C2 (witness): the ring exchange at `N = 3`, `r = 0`: the delivered
buffer is eight copies of rank 2 and the verification flag is true. -/
theorem c2_ring_exchange_witness :
    (2 : Int) ≤ 3 ∧ (0 : Int) ≤ 0 ∧ (0 : Int) < 3 ∧
    (ringDelivered 8 3 0 = some (List.replicate 8 (mpiRingSrc 0 3)) ∧
      ringVerify 3 0 = true) :=
  ⟨by decide, by decide, by decide,
    c2_ring_exchange 3 0 (by decide) (by decide) (by decide)⟩

/-- C3 (counterexample): a `cpu_partition_stress.py` run whose
`sched_getaffinity` call raised (fallback to `range(os.cpu_count())`)
prints a report identical, line for line, to a run whose probe succeeded
with the same resulting CPU set — so the report carries no note that the
fallback value is an approximation. -/
theorem c3_counterexample :
    partitionProbeReport none 4 "node1" 4242
      = partitionProbeReport (some [2, 0, 1, 3]) 4 "node1" 4242 := by
  decide

/-- C3 (amended): whenever the affinity call is unavailable or raises,
`cpu_partition_stress.py` falls back to the full core range visible to
the runtime — a non-empty set of size `os.cpu_count()` — and never
propagates the exception; however, the printed report does not mark the
fallback as an approximation (it is indistinguishable from a successful
read of the same set). -/
theorem c3_affinity_fallback (cpuCount : Nat) (h : 1 ≤ cpuCount) :
    partitionAffinity none cpuCount = List.range cpuCount ∧
    (partitionAffinity none cpuCount).length = cpuCount ∧
    (partitionAffinity none cpuCount).isEmpty = false := by
  refine ⟨rfl, by simp [partitionAffinity], ?_⟩
  simp [partitionAffinity, List.isEmpty_iff, List.range_eq_nil]
  omega

/-- C3 (witness): the fallback with 4 visible cores yields the non-empty
set `[0, 1, 2, 3]`. -/
theorem c3_affinity_fallback_witness :
    1 ≤ 4 ∧
    (partitionAffinity none 4 = List.range 4 ∧
      (partitionAffinity none 4).length = 4 ∧
      (partitionAffinity none 4).isEmpty = false) :=
  ⟨by decide, c3_affinity_fallback 4 (by decide)⟩

/-- C4 (counterexample): requesting an explicit worker count of 0 makes
`stress_long.main` spawn `max(1, 0) = 1` CPU worker, not the requested
count 0 — so the generator does not always spawn exactly the requested
count. -/
theorem c4_counterexample :
    (stress_long_main true 0 { defaultStressArgs with cpuThreads := 0 }).workerStops.length = 1 ∧
    ((stress_long_main true 0 { defaultStressArgs with cpuThreads := 0 }).workerStops.length
      == 0) = false := by
  decide

/-- C4 (amended): for every detected CPU set, `cpu_partition_stress.py`
spawns exactly one worker per element, each handed exactly its CPU
identifier as pin target; when an explicit count `n` is requested,
`stress_long.main` spawns exactly `max(1, n)` workers (equal to the
request only when `n ≥ 1`). -/
theorem c4_worker_spawn (aff : List Nat) (n : Int) (now : Int) :
    (partitionWorkers aff).length = aff.length ∧
    (partitionWorkers aff).map Worker.cpu = aff ∧
    (stress_long_main true now { defaultStressArgs with cpuThreads := n }).workerStops.length
      = (max 1 n).toNat := by
  refine ⟨by simp [partitionWorkers], ?_, by simp [stress_long_main]⟩
  unfold partitionWorkers
  rw [List.map_map]
  exact List.map_id aff

/-- C5 (counterexample): with a configured duration of 1 second,
`stress_long.main` computes `stop_time = now + max(5, 1)`, i.e. 1005 for
`now = 1000` — not `now + d = 1001` as the claim states. -/
theorem c5_counterexample :
    (stress_long_main true 1000 ⟨1, 8, 4096⟩).gpuLoopStop = 1005 ∧
    ((stress_long_main true 1000 ⟨1, 8, 4096⟩).gpuLoopStop == 1000 + 1) = false := by
  decide

/-- C5 (amended): `stress_long.main` computes its deadline once at start
as `now + max(5, d)` (not `now + d`), and every spawned CPU worker and the
GPU loop poll that same single value; in `cpu_partition_stress.py`,
however, each worker derives its own deadline `t0 + 20` from its own start
reading, so workers started at different instants poll different values. -/
theorem c5_deadline (cuda : Bool) (now : Int) (args : StressArgs) (t0 : Int) :
    (stress_long_main cuda now args).gpuLoopStop = now + max 5 args.seconds ∧
    ((stress_long_main cuda now args).workerStops.all
      fun s => s == (stress_long_main cuda now args).gpuLoopStop) = true ∧
    burnerDeadline t0 = t0 + 20 ∧
    (burnerDeadline 0 == burnerDeadline 1) = false := by
  refine ⟨rfl, ?_, rfl, by decide⟩
  simp [stress_long_main, List.all_eq_true, List.mem_replicate]

/-- C6 (counterexample): the join loop of `cpu_partition_stress.py`
carries no timeout, and joining a worker that never exits blocks the
caller indefinitely — contradicting the claim that every worker is joined
with a bounded grace timeout. -/
theorem c6_counterexample :
    partitionJoinCall.timeout = none ∧
    (joinWait partitionJoinCall none).isNone = true := by
  decide

/-- C6 (amended): `stress_long.main` joins every worker with a 1-second
grace timeout and then proceeds regardless — whatever the worker's exit
behaviour, the caller is blocked at most 1 second per join; the join loop
of `cpu_partition_stress.py`, by contrast, has no timeout, and a worker
that never exits blocks process termination indefinitely. -/
theorem c6_join_bounded (e : Option Nat) (cuda : Bool) (now : Int) (args : StressArgs) :
    (joinWait (stress_long_main cuda now args).joinCall e).isSome = true ∧
    (joinWait (stress_long_main cuda now args).joinCall e).getD 0 ≤ 1 ∧
    joinWait partitionJoinCall none = none := by
  cases e <;> simp [joinWait, stress_long_main, partitionJoinCall]

/-- C7: every cgroup/affinity probe is best-effort: whenever the status or
cgroup pseudo-file is missing or its read raises, the probing function
returns `None` (the corresponding line is then simply absent from the
printed report), and — being a total function into `Option` — never
propagates an exception or error object to the caller. -/
theorem c7_best_effort_reads (fs : ProcFS) :
    (fs.pathExists "/proc/self/status" = false → read_linux_cpu_affinity fs = none) ∧
    (fs.readFile "/proc/self/status" = .error () → read_linux_cpu_affinity fs = none) ∧
    (fs.pathExists "/proc/self/cgroup" = false → read_linux_cgroup_cpuset fs = none) ∧
    (fs.readFile "/proc/self/cgroup" = .error () → read_linux_cgroup_cpuset fs = none) ∧
    (fs.pathExists "/proc/self/status" = false ∧ fs.pathExists "/proc/self/cgroup" = false →
      stressLongProbeLines fs = []) := by
  refine ⟨affinity_none_of_no_status fs, affinity_none_of_read_error fs,
    cgroup_none_of_no_path fs, cgroup_none_of_read_error fs, ?_⟩
  rintro ⟨h1, h2⟩
  unfold stressLongProbeLines
  rw [affinity_none_of_no_status fs h1, cgroup_none_of_no_path fs h2]
  rfl

/-- A pseudo-filesystem on which every path is absent and every read
raises. -/
def fsAllFail : ProcFS :=
  { osPosix := true, pathExists := fun _ => false, readFile := fun _ => .error () }

/-- C7 (witness): on a filesystem where every path is missing, both probes
return `None` and the report omits both lines. -/
theorem c7_best_effort_reads_witness :
    read_linux_cpu_affinity fsAllFail = none ∧
    read_linux_cgroup_cpuset fsAllFail = none ∧
    stressLongProbeLines fsAllFail = [] :=
  ⟨(c7_best_effort_reads fsAllFail).1 rfl,
   (c7_best_effort_reads fsAllFail).2.2.1 rfl,
   (c7_best_effort_reads fsAllFail).2.2.2.2 ⟨rfl, rfl⟩⟩

/-- C8 (counterexample): a worker whose pinning call fails logs nothing at
all — the `except Exception: pass` branch is silent — while its busy loop
still runs to the 20-second deadline (three iterations on this clock
trace); the claim that the failure is logged as a degraded condition is
false. -/
theorem c8_counterexample :
    (cpu_burner 3 false 0 [0, 5, 19, 25]).logMessages = [] ∧
    (cpu_burner 3 false 0 [0, 5, 19, 25]).iterations = 3 := by
  decide

/-- C8 (amended): when pinning a worker to its CPU fails, the run is not
aborted — the worker executes exactly the same busy loop to its deadline
as a successfully pinned worker — but the failure is silently swallowed
(`except Exception: pass`), not logged. -/
theorem c8_pin_failure_nonfatal (cpu : Nat) (t0 : Int) (clock : List Int) :
    (cpu_burner cpu false t0 clock).pinnedTo = none ∧
    (cpu_burner cpu false t0 clock).iterations = (cpu_burner cpu true t0 clock).iterations ∧
    (cpu_burner cpu false t0 clock).logMessages = [] :=
  ⟨rfl, rfl, rfl⟩

/-- C9 (counterexample): an unrecognised flag is not folded back to the
defaults: `argparse` rejects the invocation and exits with status 2. -/
theorem c9_counterexample :
    stressLongParse [ArgTok.unknown "--bogus"] = .error 2 := rfl

/-- C9 (amended): missing flags fall back to the documented defaults
(`--seconds 180 --cpu-threads 8 --matrix 4096`) and every stream of
recognised flags is accepted; an unrecognised flag, however, is rejected
outright by the argument parser, which exits with status 2. -/
theorem c9_defaults (toks : List ArgTok) (h : hasUnknownTok toks = false) :
    stressLongParse [] = .ok defaultStressArgs ∧
    ∃ r : StressArgs, stressLongParse toks = .ok r :=
  ⟨rfl, parse_args_ok_of_known toks h defaultStressArgs⟩

/-- C9 (witness): the stream `--seconds 10` has no unknown token and is
accepted. -/
theorem c9_defaults_witness :
    hasUnknownTok [ArgTok.secondsFlag 10] = false ∧
    (stressLongParse [] = .ok defaultStressArgs ∧
      ∃ r : StressArgs, stressLongParse [ArgTok.secondsFlag 10] = .ok r) :=
  ⟨rfl, c9_defaults [ArgTok.secondsFlag 10] rfl⟩

/-- C10: for every integer `n` passed as `--cpu-threads`,
`stress_long.main` spawns exactly `max(1, n)` CPU worker threads; in
particular every non-positive request (`n = -m` for a natural `m`)
spawns exactly one worker, never zero and never an error. -/
theorem c10_worker_clamp (cuda : Bool) (now : Int) (args : StressArgs) (m : Nat) :
    (stress_long_main cuda now args).workerStops.length = (max 1 args.cpuThreads).toNat ∧
    (stress_long_main cuda now { args with cpuThreads := -(m : Int) }).workerStops.length = 1 := by
  constructor
  · simp [stress_long_main]
  · simp [stress_long_main]
    omega

end PartitioningSetup
